import Mathlib

/-!
Verification of the BCB Pix normativos monitor (`src/monitor.py`).

The Python program is embedded shallowly:

* JSON state documents (`state.json`) become association lists over a small
  JSON value type `JVal`; `load_state` / field assignment follow the Python
  dict semantics.
* Pure string manipulation (`[:n]` slicing, f-strings) becomes explicit
  character-list operations on Lean `String`s.
* External effects are oracles passed in as explicit arguments:
  - the Twilio client, the Anthropic client and the page fetches become
    functions `String → Except String String` (argument = body / prompt /
    url, `Except.error` = the call raised);
  - the HEAD/GET probe of `check_sequential_normativos` becomes a function
    `Nat → ProbeResult`;
  - `datetime.now` / `datetime.now(timezone.utc)` become string inputs.
* The `run` coroutine becomes a pure function from a `RunEnv` (flag, state
  file contents, fetch result, oracles) to a `RunResult` recording the
  candidate list, every invocation of `enviar_whatsapp`'s transport
  (`attempts`), the successful sends (`sent`), the in-memory `seen_ids`
  after the loop (`final_seen`) and the written state file (`persisted`,
  `none` when persistence is skipped).
-/

namespace Monitor

/-- JSON-like values, for the `state.json` document read by `load_state`
(monitor.py line 82) and written by `save_state` (line 87). -/
inductive JVal where
  | null : JVal
  | bool : Bool → JVal
  | num : Int → JVal
  | str : String → JVal
  | arr : List JVal → JVal
  | obj : List (String × JVal) → JVal

/-- A JSON object document: an association list of fields, in insertion
order, with unique keys (Python dict). -/
def StateDoc := List (String × JVal)

/-- First value bound to `key`, as Python `dict.__getitem__` / `dict.get`. -/
def lookupField : StateDoc → String → Option JVal
  | [], _ => none
  | (k, v) :: rest, key => if k = key then some v else lookupField rest key

/-- Python `d[key] = v` on a dict rendered as an assoc list with unique
keys: replace the existing binding in place, or append a new one. -/
def setField : StateDoc → String → JVal → StateDoc
  | [], key, v => [(key, v)]
  | (k, w) :: rest, key, v =>
    if k = key then (key, v) :: rest else (k, w) :: setField rest key v

/-- Decode a JSON array of strings (the well-formed shape of `seen_ids`). -/
def decodeStrs : List JVal → Option (List String)
  | [] => some []
  | JVal.str s :: rest =>
    match decodeStrs rest with
    | some ss => some (s :: ss)
    | none => none
  | _ :: _ => none

/-- The list of strings held by a `seen_ids`-shaped value; `[]` for shapes
the Python code would only meet on a corrupted state file. -/
def decodeStrList : JVal → Option (List String)
  | JVal.arr xs => decodeStrs xs
  | _ => none

/-- monitor.py lines 80-83: `load_state` returns the parsed state file, or
the default `\x7b"seen_ids": [], "last_check": None\x7d` when the file does
not exist. The file contents are the `Option StateDoc` argument. -/
def load_state (file : Option StateDoc) : StateDoc :=
  match file with
  | some doc => doc
  | none => [("seen_ids", JVal.arr []), ("last_check", JVal.null)]

/-- `state.get("seen_ids", [])` (monitor.py lines 142, 271), specialised to
well-typed documents: a missing key or a non-string-array value yields `[]`
(the Python code would use the raw value; every theorem below instantiates
the state file with a well-formed document, where both agree). -/
def getSeenIds (doc : StateDoc) : List String :=
  match lookupField doc "seen_ids" with
  | some v => (decodeStrList v).getD []
  | none => []

/-- Python string slicing `s[:n]` as a character-count prefix. -/
def takeChars (n : Nat) (s : String) : String := String.mk (s.data.take n)

/-- Python `l[-n:]`: the last `n` elements (all of them when fewer). -/
def lastN (n : Nat) (l : List α) : List α := l.drop (l.length - n)

/-- One discovered regulatory act, the dict shape built at monitor.py
lines 120-128, 166-174 and 57-76. -/
structure RegulationItem where
  id : String
  tipo : String
  numero : String
  titulo : String
  data_publicacao : String
  url : String
  ementa : String
deriving DecidableEq, Repr

/-- monitor.py line 48. -/
def BCB_NORMATIVO_BASE : String :=
  "https://www.bcb.gov.br/estabilidadefinanceira/exibenormativo"

/-- monitor.py lines 58-66: the known Resolução BCB 407 fallback entry. -/
def normativo_407 : RegulationItem :=
  { id := "ResolucaoBCB-407"
  , tipo := "Resolução BCB"
  , numero := "407"
  , titulo := "Altera o Regulamento Pix para implementar o Pix Automático"
  , data_publicacao := "2024-08-02"
  , url := BCB_NORMATIVO_BASE ++ "?tipo=Resolu%C3%A7%C3%A3o+BCB&numero=407"
  , ementa := "Implementa o Pix Automático como modalidade de débito recorrente." }

/-- monitor.py lines 67-75: the known Resolução BCB 403 fallback entry. -/
def normativo_403 : RegulationItem :=
  { id := "ResolucaoBCB-403"
  , tipo := "Resolução BCB"
  , numero := "403"
  , titulo := "Aprimora mecanismos de segurança e gerenciamento de risco de fraude no Pix"
  , data_publicacao := "2024-07-22"
  , url := BCB_NORMATIVO_BASE ++ "?tipo=Resolu%C3%A7%C3%A3o+BCB&numero=403"
  , ementa := "Exige solução antifraude com detecção de transações atípicas." }

/-- monitor.py lines 57-76: the two known fallback resoluções, newest
first. -/
def NORMATIVOS_CONHECIDOS : List RegulationItem := [normativo_407, normativo_403]

/-- Numeric value of a digit string (the effect of Python `int` on a
regex group of `\d+`). -/
def digitsVal (ds : List Char) : Nat :=
  ds.foldl (fun a c => a * 10 + (c.toNat - 48)) 0

/-- monitor.py lines 146-148: `re.search(r"(\d+)$", sid)` captures the
maximal digit suffix of `sid`, when non-empty, and `int` converts it. -/
def trailingDigits (s : String) : Option Nat :=
  let ds := (s.data.reverse.takeWhile Char.isDigit).reverse
  if ds.isEmpty then none else some (digitsVal ds)

/-- monitor.py lines 144-150: the highest number seen (over ids with a
digit suffix), defaulting to the baseline 429. -/
def ultimo_numero (seen_ids : List String) : Nat :=
  let numeros_vistos := seen_ids.filterMap trailingDigits
  if numeros_vistos.isEmpty then 429 else numeros_vistos.foldl Nat.max 0

/-- The link data read from a listing row: its target, its stripped text,
and the number extracted from each by the two `re.search` calls of
monitor.py lines 108-110, carried as their precomputed optional results
(the regex engine is library code external to the repository). -/
structure LinkData where
  href : String
  texto : String
  numero_href : Option String
  numero_texto : Option String

/-- One listing row of the primary strategy (monitor.py lines 98-116), as
the data the loop body reads from it: the first `<a href>` child, if any,
and the text of the date cell, if any. -/
structure Row where
  link : Option LinkData
  data_cell : Option String

/-- monitor.py lines 101-131: one iteration of the row loop, yielding the
appended normativo dict or skipping the row (missing link, no extractable
number, or a raised-and-caught per-row exception is a `none` link field). -/
def parse_row (row : Row) : Option RegulationItem :=
  match row.link with
  | none => none
  | some link =>
    match (match link.numero_href with
           | some n => some n
           | none => link.numero_texto) with
    | none => none
    | some numero =>
      let data := match row.data_cell with
                  | some t => t
                  | none => ""
      let titulo := if link.texto = "" then "Resolução BCB nº " ++ numero
                    else takeChars 200 link.texto
      let url := if link.href.startsWith "http" then link.href
                 else "https://www.bcb.gov.br" ++ link.href
      some { id := "ResolucaoBCB-" ++ numero
           , tipo := "Resolução BCB"
           , numero := numero
           , titulo := titulo
           , data_publicacao := data
           , url := url
           , ementa := titulo }

/-- Outcome of probing one candidate number in
`check_sequential_normativos` (monitor.py lines 156-177): the HEAD/GET
pair raised (`err`), the HEAD status was not 200 (`notFound`), or the
number exists and the fetched page's first `h1`/`h2` text is carried
(`found none` when neither heading is present). -/
inductive ProbeResult where
  | err : ProbeResult
  | notFound : Nat → ProbeResult
  | found : Option String → ProbeResult

/-- Inputs of the sequential fallback (monitor.py lines 140-179): the
state file it re-reads, the probe oracle, and `datetime.now`'s date. -/
structure SeqEnv where
  state_file : Option StateDoc
  probe : Nat → ProbeResult
  today : String

/-- monitor.py lines 154-177: one probed number, yielding the synthesized
normativo when the HEAD check returns 200 (exceptions are caught and the
number skipped). -/
def probe_item (env : SeqEnv) (num : Nat) : Option RegulationItem :=
  match env.probe num with
  | ProbeResult.err => none
  | ProbeResult.notFound _ => none
  | ProbeResult.found h1 =>
    let titulo := match h1 with
                  | some t => t
                  | none => "Resolução BCB nº " ++ toString num
    some { id := "ResolucaoBCB-" ++ toString num
         , tipo := "Resolução BCB"
         , numero := toString num
         , titulo := titulo
         , data_publicacao := env.today
         , url := BCB_NORMATIVO_BASE ++ "?tipo=Resolu%C3%A7%C3%A3o+BCB&numero=" ++ toString num
         , ementa := titulo }

/-- The five candidate numbers `range(ultimo_numero + 1, ultimo_numero + 6)`
of monitor.py line 154. -/
def probe_range (u : Nat) : List Nat := [u + 1, u + 2, u + 3, u + 4, u + 5]

/-- monitor.py lines 140-179: `check_sequential_normativos` reloads the
state, takes the highest recorded number (or the 429 baseline) and probes
the next five numbers in ascending order. -/
def check_sequential_normativos (env : SeqEnv) : List RegulationItem :=
  let seen_ids := getSeenIds (load_state env.state_file)
  (probe_range (ultimo_numero seen_ids)).filterMap (probe_item env)

/-- monitor.py lines 98-131: the primary listing strategy over the first
20 parsed rows. -/
def primary_normativos (rows : List Row) : List RegulationItem :=
  (rows.take 20).filterMap parse_row

/-- monitor.py lines 91-137: `fetch_latest_normativos` — the primary
strategy, falling back to the sequential probe exactly when the primary
yields no items. -/
def fetch_latest_normativos (rows : List Row) (env : SeqEnv) : List RegulationItem :=
  let normativos := primary_normativos rows
  if normativos.isEmpty then check_sequential_normativos env else normativos

/-- monitor.py lines 182-193: `fetch_normativo_texto`. The GET plus
BeautifulSoup cleaning is the oracle argument (`Except.error` = the body
raised, `Except.ok t` = the cleaned `get_text` result is `t`); the
function catches every failure into `""` and truncates success to 6000
characters. -/
def fetch_normativo_texto (page : Except String String) : String :=
  match page with
  | Except.error _ => ""
  | Except.ok cleaned => takeChars 6000 cleaned

/-- monitor.py lines 200-204: the `contexto` block of the prompt — the
full text when non-empty, otherwise the ementa. -/
def contexto_of (normativo : RegulationItem) (texto_completo : String) : String :=
  if texto_completo = "" then "\n\nEmenta: " ++ normativo.ementa
  else "\n\nTexto da norma:\n" ++ texto_completo

/-- monitor.py lines 206-225: the prompt f-string of `gerar_resumo`. -/
def gerar_resumo_prompt (normativo : RegulationItem) (texto_completo : String) : String :=
  "Você é especialista em regulação do sistema de pagamentos brasileiro, \n" ++
  "com foco no arranjo Pix. Analise a normativa abaixo e produza um resumo executivo \n" ++
  "para o time de produto de uma instituição participante do Pix.\n\n" ++
  "Normativo: " ++ normativo.tipo ++ " nº " ++ normativo.numero ++ "\n" ++
  "Título: " ++ normativo.titulo ++ "\n" ++
  "Data de publicação: " ++ normativo.data_publicacao ++ "\n" ++
  contexto_of normativo texto_completo ++ "\n\n" ++
  "Produza um resumo com EXATAMENTE este formato (máx. 350 palavras):\n\n" ++
  "🎯 *O que mudou*: [1-2 frases diretas sobre o que a norma altera]\n\n" ++
  "📌 *Impacto para o produto*: [bullet points com impactos concretos para o time de produto Pix]\n\n" ++
  "⏰ *Prazo de adequação*: [datas e prazos mencionados, ou \"Não especificado\"]\n\n" ++
  "🔗 *Para ler a norma completa*: " ++ normativo.url ++ "\n\n" ++
  "Seja objetivo, técnico e direto."

/-- monitor.py lines 197-232: `gerar_resumo` hands the prompt to the
text-generation collaborator (the oracle argument; model name and token
cap are fixed constants absorbed into it) and returns its text, or raises. -/
def gerar_resumo (claude : String → Except String String)
    (normativo : RegulationItem) (texto_completo : String) : Except String String :=
  claude (gerar_resumo_prompt normativo texto_completo)

/-- monitor.py line 237: the body actually handed to the messaging
collaborator — the composed message truncated to its first 1500
characters. -/
def enviar_whatsapp_body (mensagem : String) : String := takeChars 1500 mensagem

/-- monitor.py lines 236-245: `enviar_whatsapp` truncates and hands the
body to the Twilio client (the oracle argument; `Except.ok` carries the
returned message SID, `Except.error` = the send raised). -/
def enviar_whatsapp (twilio : String → Except String String)
    (mensagem : String) : Except String String :=
  twilio (enviar_whatsapp_body mensagem)

/-- monitor.py lines 248-257: the composed WhatsApp message f-string. -/
def montar_mensagem (normativo : RegulationItem) (resumo : String) : String :=
  "🏦 *Nova Normativa BCB — Pix*\n\n" ++
  "📄 *" ++ normativo.tipo ++ " nº " ++ normativo.numero ++ "*\n" ++
  "_" ++ takeChars 100 normativo.titulo ++ "_\n" ++
  "📅 Publicada em: " ++ normativo.data_publicacao ++ "\n\n" ++
  resumo ++ "\n\n"

/-- Inputs of one `run()` (monitor.py lines 261-298): the `FORCE_RESET`
flag, the contents of `state.json` (unchanged for the whole run — the
single-run-at-a-time assumption), the value `fetch_latest_normativos`
returns on the live path, the page / text-generation / messaging oracles,
and the two timestamps. -/
structure RunEnv where
  force_reset : Bool
  state_file : Option StateDoc
  live_fetch : List RegulationItem
  page : String → Except String String
  claude : String → Except String String
  twilio : String → Except String String
  now_utc : String

/-- What the per-item loop of `run` produced: every body handed to the
Twilio transport paired with its item id (`attempts`), the sends that
returned a SID (`sent`), and the ids appended to `seen_ids` (`appended`),
each in processing order. -/
structure ProcResult where
  attempts : List (String × String)
  sent : List (String × String)
  appended : List String

/-- monitor.py lines 279-290: the loop body over the (already reversed)
new-item list. A raise from `gerar_resumo` skips the item before any send;
a raise from the Twilio call skips the append; a success records the send
and appends the id. `fetch_normativo_texto` cannot raise (line 191). -/
def processItems (page claude twilio : String → Except String String) :
    List RegulationItem → ProcResult
  | [] => { attempts := [], sent := [], appended := [] }
  | normativo :: rest =>
    match gerar_resumo claude normativo (fetch_normativo_texto (page normativo.url)) with
    | Except.error _ => processItems page claude twilio rest
    | Except.ok resumo =>
      let body := enviar_whatsapp_body (montar_mensagem normativo resumo)
      let r := processItems page claude twilio rest
      match twilio body with
      | Except.error _ =>
        { attempts := (normativo.id, body) :: r.attempts
        , sent := r.sent
        , appended := r.appended }
      | Except.ok _ =>
        { attempts := (normativo.id, body) :: r.attempts
        , sent := (normativo.id, body) :: r.sent
        , appended := normativo.id :: r.appended }

/-- monitor.py lines 264-272: the starting `seen_ids` — empty under
`FORCE_RESET`, otherwise read from the state file. -/
def seenAtStart (env : RunEnv) : List String :=
  if env.force_reset then [] else getSeenIds (load_state env.state_file)

/-- monitor.py lines 264-272: the candidate list — the first element of
`NORMATIVOS_CONHECIDOS` under `FORCE_RESET`, otherwise the live fetch. -/
def candidatesOf (env : RunEnv) : List RegulationItem :=
  if env.force_reset then NORMATIVOS_CONHECIDOS.take 1 else env.live_fetch

/-- monitor.py line 276: the new items, in fetched order. -/
def novosOf (env : RunEnv) : List RegulationItem :=
  (candidatesOf env).filter (fun n => !((seenAtStart env).contains n.id))

/-- Observable outcome of one `run`. -/
structure RunResult where
  candidates : List RegulationItem
  attempts : List (String × String)
  sent : List (String × String)
  final_seen : List String
  persisted : Option StateDoc

/-- monitor.py lines 261-298: the whole `run()` pipeline — choose the
start state and candidates by the flag, filter the new items, process them
in reversed (oldest-first) order, and, unless `FORCE_RESET`, reload the
state file, overwrite `seen_ids` with the last 500 ids and `last_check`
with the UTC timestamp, and write it back. -/
def run (env : RunEnv) : RunResult :=
  let seen_ids := seenAtStart env
  let novos := novosOf env
  let pr := processItems env.page env.claude env.twilio novos.reverse
  let final_seen := seen_ids ++ pr.appended
  let persisted :=
    if env.force_reset then none
    else
      let state := load_state env.state_file
      let state1 := setField state "seen_ids" (JVal.arr ((lastN 500 final_seen).map JVal.str))
      let state2 := setField state1 "last_check" (JVal.str env.now_utc)
      some state2
  { candidates := candidatesOf env
  , attempts := pr.attempts
  , sent := pr.sent
  , final_seen := final_seen
  , persisted := persisted }

/-- The seen-ids array of the state file a run wrote (`[]` when the run
skipped persistence). -/
def persistedSeenIds (r : RunResult) : List String :=
  match r.persisted with
  | some doc => getSeenIds doc
  | none => []

/-- The summarization outcome the loop body obtains for one item
(monitor.py lines 282-283). -/
def item_resumo (page claude : String → Except String String)
    (normativo : RegulationItem) : Except String String :=
  gerar_resumo claude normativo (fetch_normativo_texto (page normativo.url))

/-- The truncated body the loop body hands to the transport for one item
(`""` when summarization raised and no send happens). -/
def item_body (page claude : String → Except String String)
    (normativo : RegulationItem) : String :=
  match item_resumo page claude normativo with
  | Except.ok resumo => enviar_whatsapp_body (montar_mensagem normativo resumo)
  | Except.error _ => ""

/-- Whether the loop body reaches the Twilio call for one item. -/
def item_attempted (page claude : String → Except String String)
    (normativo : RegulationItem) : Bool :=
  match item_resumo page claude normativo with
  | Except.ok _ => true
  | Except.error _ => false

/-- Whether the whole pipeline succeeds for one item (summary obtained and
send returned a SID), i.e. whether its id gets appended. -/
def item_sent (page claude twilio : String → Except String String)
    (normativo : RegulationItem) : Bool :=
  match item_resumo page claude normativo with
  | Except.error _ => false
  | Except.ok resumo =>
    match twilio (enviar_whatsapp_body (montar_mensagem normativo resumo)) with
    | Except.ok _ => true
    | Except.error _ => false

theorem processItems_eq (pg cl tw : String → Except String String)
    (l : List RegulationItem) :
    processItems pg cl tw l =
      { attempts := (l.filter (item_attempted pg cl)).map
          (fun n => (n.id, item_body pg cl n))
      , sent := (l.filter (item_sent pg cl tw)).map
          (fun n => (n.id, item_body pg cl n))
      , appended := (l.filter (item_sent pg cl tw)).map (fun n => n.id) } := by
  induction l with
  | nil => rfl
  | cons n rest ih =>
    simp only [processItems]
    cases hr : gerar_resumo cl n (fetch_normativo_texto (pg n.url)) with
    | error e =>
      simp [List.filter_cons, item_attempted, item_sent, item_resumo, hr, ih]
    | ok resumo =>
      cases ht : tw (enviar_whatsapp_body (montar_mensagem n resumo)) with
      | error e =>
        simp [List.filter_cons, item_attempted, item_sent, item_body, item_resumo, hr, ht, ih]
      | ok sid =>
        simp [List.filter_cons, item_attempted, item_sent, item_body, item_resumo, hr, ht, ih]

theorem lookupField_setField_self (doc : StateDoc) (k : String) (v : JVal) :
    lookupField (setField doc k v) k = some v := by
  induction doc with
  | nil => simp [setField, lookupField]
  | cons p rest ih =>
    by_cases h : p.1 = k
    · simp [setField, lookupField, h]
    · simp [setField, lookupField, h, ih]

theorem lookupField_setField_ne (doc : StateDoc) (k key : String) (v : JVal)
    (h : key ≠ k) :
    lookupField (setField doc k v) key = lookupField doc key := by
  induction doc with
  | nil => simp [setField, lookupField, Ne.symm h]
  | cons p rest ih =>
    by_cases hp : p.1 = k
    · simp [setField, lookupField, hp, Ne.symm h]
    · simp [setField, lookupField, hp, ih]

theorem decodeStrs_map_str (l : List String) :
    decodeStrs (l.map JVal.str) = some l := by
  induction l with
  | nil => rfl
  | cons s rest ih => simp [decodeStrs, ih]

theorem getSeenIds_persist (doc : StateDoc) (l : List String) (w : JVal) :
    getSeenIds (setField (setField doc "seen_ids" (JVal.arr (l.map JVal.str)))
      "last_check" w) = l := by
  have hne : ("seen_ids" : String) ≠ "last_check" := by decide
  simp [getSeenIds, lookupField_setField_ne _ _ _ _ hne, lookupField_setField_self,
    decodeStrList, decodeStrs_map_str]

theorem lastN_length_le (n : Nat) (l : List α) : (lastN n l).length ≤ n := by
  simp only [lastN, List.length_drop]
  omega

theorem lastN_suffix (n : Nat) (l : List α) : lastN n l <:+ l :=
  List.drop_suffix _ _

theorem lastN_eq_self {n : Nat} {l : List α} (h : l.length ≤ n) : lastN n l = l := by
  simp [lastN, Nat.sub_eq_zero_of_le h]

theorem lastN_append_of_le {n : Nat} {l₂ : List α} (l₁ : List α)
    (h : l₂.length ≤ n) :
    lastN n (l₁ ++ l₂) = lastN (n - l₂.length) l₁ ++ l₂ := by
  simp only [lastN, List.length_append, List.drop_append_eq_append_drop]
  have h1 : l₁.length + l₂.length - n - l₁.length = 0 := by omega
  have h2 : l₁.length + l₂.length - n = l₁.length - (n - l₂.length) := by omega
  rw [h1, h2, List.drop_zero]

theorem run_attempts (env : RunEnv) :
    (run env).attempts =
      ((novosOf env).reverse.filter (item_attempted env.page env.claude)).map
        (fun n => (n.id, item_body env.page env.claude n)) := by
  simp [run, processItems_eq]

theorem run_sent (env : RunEnv) :
    (run env).sent =
      ((novosOf env).reverse.filter (item_sent env.page env.claude env.twilio)).map
        (fun n => (n.id, item_body env.page env.claude n)) := by
  simp [run, processItems_eq]

theorem run_final_seen (env : RunEnv) :
    (run env).final_seen =
      seenAtStart env ++
        ((novosOf env).reverse.filter (item_sent env.page env.claude env.twilio)).map
          (fun n => n.id) := by
  simp [run, processItems_eq]

theorem run_persisted (env : RunEnv) (h : env.force_reset = false) :
    (run env).persisted =
      some (setField
        (setField (load_state env.state_file) "seen_ids"
          (JVal.arr ((lastN 500 (run env).final_seen).map JVal.str)))
        "last_check" (JVal.str env.now_utc)) := by
  simp [run, h]

theorem run_persistedSeenIds (env : RunEnv) (h : env.force_reset = false) :
    persistedSeenIds (run env) = lastN 500 (run env).final_seen := by
  rw [persistedSeenIds, run_persisted env h]
  exact getSeenIds_persist _ _ _

theorem enviar_whatsapp_body_length (m : String) :
    (enviar_whatsapp_body m).length ≤ 1500 := by
  simp only [enviar_whatsapp_body, takeChars, String.length, List.length_take]
  exact Nat.min_le_left _ _

theorem item_body_length (pg cl : String → Except String String)
    (n : RegulationItem) : (item_body pg cl n).length ≤ 1500 := by
  unfold item_body
  cases item_resumo pg cl n with
  | error e => simp [String.length]
  | ok resumo => exact enviar_whatsapp_body_length _

/-- A concrete live-mode environment: the state file holds one seen id and
one unrelated extra field, the fetch returns the two known resoluções, and
every collaborator call succeeds. -/
def envLive : RunEnv :=
  { force_reset := false
  , state_file := some
      [ ("seen_ids", JVal.arr [JVal.str "ResolucaoBCB-403"])
      , ("last_check", JVal.str "2026-10-11T00:00:00+00:00")
      , ("extra", JVal.str "kept") ]
  , live_fetch := NORMATIVOS_CONHECIDOS
  , page := fun _ => Except.ok ""
  , claude := fun _ => Except.ok "RESUMO"
  , twilio := fun _ => Except.ok "SID"
  , now_utc := "2026-10-12T00:00:00+00:00" }

/-- C4: after every non-dry run, the persisted seen-id list has length at
most 500, is exactly the last-500 slice of the run's final in-memory seen
list, and is a suffix of it — the retained entries are the most recently
appended ones (FIFO eviction of the oldest beyond the cap). -/
theorem C4_bounded_history (env : RunEnv) (h : env.force_reset = false) :
    ∃ doc, (run env).persisted = some doc ∧
      getSeenIds doc = lastN 500 (run env).final_seen ∧
      (getSeenIds doc).length ≤ 500 ∧
      getSeenIds doc <:+ (run env).final_seen := by
  refine ⟨_, run_persisted env h, getSeenIds_persist _ _ _, ?_, ?_⟩
  · rw [getSeenIds_persist]
    exact lastN_length_le _ _
  · rw [getSeenIds_persist]
    exact lastN_suffix _ _

theorem C4_bounded_history_witness :
    ∃ doc, (run envLive).persisted = some doc ∧
      getSeenIds doc = lastN 500 (run envLive).final_seen ∧
      (getSeenIds doc).length ≤ 500 ∧
      getSeenIds doc <:+ (run envLive).final_seen :=
  C4_bounded_history envLive rfl

/-- C5: with the FORCE_RESET flag set, a run is entirely independent of the
persisted state file and of the live fetch, writes no state back, uses the
fixed fallback list (its first entry) as the candidate set, and starts from
an empty seen set. -/
theorem C5_dry_run_purity (file file' : Option StateDoc)
    (lf lf' : List RegulationItem)
    (pg cl tw : String → Except String String) (now : String) :
    run (RunEnv.mk true file lf pg cl tw now) =
      run (RunEnv.mk true file' lf' pg cl tw now) ∧
    (run (RunEnv.mk true file lf pg cl tw now)).persisted = none ∧
    (run (RunEnv.mk true file lf pg cl tw now)).candidates =
      NORMATIVOS_CONHECIDOS.take 1 ∧
    seenAtStart (RunEnv.mk true file lf pg cl tw now) = [] :=
  ⟨rfl, rfl, rfl, rfl⟩

/-- A 1501-character message, exceeding the 1500-character transport cut. -/
def longMsg : String := String.mk (List.replicate 1501 'a')

theorem longMsg_length : longMsg.length = 1501 := by
  rw [show longMsg.length = (List.replicate 1501 'a').length from rfl,
    List.length_replicate]

/-- C8: the body handed to the messaging collaborator is always at most
1500 characters; a composed message longer than 1500 characters is cut to
exactly its first 1500 characters (the tail is dropped); and every body a
run hands to the transport obeys the bound. -/
theorem C8_message_truncation (m : String) (env : RunEnv) :
    (enviar_whatsapp_body m).length ≤ 1500 ∧
    (1500 < m.length →
      (enviar_whatsapp_body m).length = 1500 ∧
      (enviar_whatsapp_body m).data ++ m.data.drop 1500 = m.data) ∧
    (∀ p ∈ (run env).attempts, p.2.length ≤ 1500) := by
  refine ⟨enviar_whatsapp_body_length m, fun hm => ⟨?_, ?_⟩, ?_⟩
  · simp only [enviar_whatsapp_body, takeChars, String.length, List.length_take]
    have : 1500 < m.data.length := hm
    omega
  · exact List.take_append_drop _ _
  · intro p hp
    rw [run_attempts] at hp
    obtain ⟨n, _, heq⟩ := List.mem_map.mp hp
    rw [← heq]
    exact item_body_length _ _ _

theorem C8_message_truncation_witness :
    (1500 < longMsg.length ∧
      (enviar_whatsapp_body longMsg).length = 1500 ∧
      (enviar_whatsapp_body longMsg).data ++ longMsg.data.drop 1500 = longMsg.data) ∧
    (enviar_whatsapp_body longMsg).length ≤ 1500 :=
  ⟨⟨by rw [longMsg_length]; omega,
    (C8_message_truncation longMsg envLive).2.1 (by rw [longMsg_length]; omega)⟩,
   (C8_message_truncation longMsg envLive).1⟩

/-- C9: the document extractor is total — a raised fetch/parse yields the
empty string, success yields the cleaned text truncated to at most 6000
characters — and the summarizer's prompt context uses the item's ementa
exactly when the extracted text is empty. -/
theorem C9_extractor_degrades (page : Except String String)
    (n : RegulationItem) (t : String) :
    (∀ e, page = Except.error e → fetch_normativo_texto page = "") ∧
    (∀ s, page = Except.ok s →
      fetch_normativo_texto page = takeChars 6000 s ∧
      (fetch_normativo_texto page).length ≤ 6000) ∧
    contexto_of n "" = "\n\nEmenta: " ++ n.ementa ∧
    (t ≠ "" → contexto_of n t = "\n\nTexto da norma:\n" ++ t) := by
  refine ⟨?_, ?_, ?_, ?_⟩
  · intro e he
    rw [he]
    rfl
  · intro s hs
    rw [hs]
    refine ⟨rfl, ?_⟩
    simp only [fetch_normativo_texto, takeChars, String.length, List.length_take]
    exact Nat.min_le_left _ _
  · rfl
  · intro ht
    simp [contexto_of, ht]

theorem C9_extractor_degrades_witness :
    fetch_normativo_texto (Except.error "timeout") = "" ∧
    fetch_normativo_texto (Except.ok "corpo da norma") = takeChars 6000 "corpo da norma" ∧
    contexto_of normativo_407 "" = "\n\nEmenta: " ++ normativo_407.ementa ∧
    contexto_of normativo_407 "T" = "\n\nTexto da norma:\n" ++ "T" :=
  ⟨(C9_extractor_degrades (Except.error "timeout") normativo_407 "T").1 "timeout" rfl,
   ((C9_extractor_degrades (Except.ok "corpo da norma") normativo_407 "T").2.1
     "corpo da norma" rfl).1,
   (C9_extractor_degrades (Except.error "timeout") normativo_407 "T").2.2.1,
   (C9_extractor_degrades (Except.error "timeout") normativo_407 "T").2.2.2
     (by decide)⟩

/-- C10: the persist step of a non-dry run re-reads the state file and
overwrites exactly its seen_ids and last_check fields; every other field
of the document is carried over unchanged. -/
theorem C10_persist_frame (env : RunEnv) (h : env.force_reset = false) :
    ∃ doc, (run env).persisted = some doc ∧
      (∀ k, k ≠ "seen_ids" → k ≠ "last_check" →
        lookupField doc k = lookupField (load_state env.state_file) k) ∧
      lookupField doc "last_check" = some (JVal.str env.now_utc) ∧
      lookupField doc "seen_ids" =
        some (JVal.arr ((lastN 500 (run env).final_seen).map JVal.str)) := by
  refine ⟨_, run_persisted env h, ?_, ?_, ?_⟩
  · intro k h1 h2
    rw [lookupField_setField_ne _ _ _ _ h2, lookupField_setField_ne _ _ _ _ h1]
  · exact lookupField_setField_self _ _ _
  · rw [lookupField_setField_ne _ _ _ _ (by decide)]
    exact lookupField_setField_self _ _ _

theorem C10_persist_frame_witness :
    (∃ doc, (run envLive).persisted = some doc ∧
      (∀ k, k ≠ "seen_ids" → k ≠ "last_check" →
        lookupField doc k = lookupField (load_state envLive.state_file) k) ∧
      lookupField doc "last_check" = some (JVal.str envLive.now_utc) ∧
      lookupField doc "seen_ids" =
        some (JVal.arr ((lastN 500 (run envLive).final_seen).map JVal.str))) ∧
    lookupField (load_state envLive.state_file) "extra" = some (JVal.str "kept") :=
  ⟨C10_persist_frame envLive rfl, rfl⟩

/-- A collaborator oracle that always answers instead of raising. -/
def okFn (f : String → Except String String) : Prop :=
  ∀ s, ∃ r, f s = Except.ok r

/-- C2: when no collaborator call raises, the run attempts and completes
the notifications in exactly the reverse of the fetched new-item order
(oldest first). -/
theorem C2_oldest_first (env : RunEnv) (hcl : okFn env.claude)
    (htw : okFn env.twilio) :
    (run env).sent.map Prod.fst = ((novosOf env).reverse).map RegulationItem.id ∧
    (run env).attempts.map Prod.fst = ((novosOf env).reverse).map RegulationItem.id := by
  have hsent : ∀ n ∈ (novosOf env).reverse,
      item_sent env.page env.claude env.twilio n = true := by
    intro n _
    obtain ⟨r, hr⟩ := hcl (gerar_resumo_prompt n (fetch_normativo_texto (env.page n.url)))
    obtain ⟨sid, hs⟩ := htw (enviar_whatsapp_body (montar_mensagem n r))
    simp [item_sent, item_resumo, gerar_resumo, hr, hs]
  have hatt : ∀ n ∈ (novosOf env).reverse,
      item_attempted env.page env.claude n = true := by
    intro n _
    obtain ⟨r, hr⟩ := hcl (gerar_resumo_prompt n (fetch_normativo_texto (env.page n.url)))
    simp [item_attempted, item_resumo, gerar_resumo, hr]
  constructor
  · rw [run_sent, List.filter_eq_self.mpr hsent, List.map_map]
    rfl
  · rw [run_attempts, List.filter_eq_self.mpr hatt, List.map_map]
    rfl

/-- A live environment with an empty seen history, fetching the two known
resoluções newest-first ([407, 403]); every collaborator call succeeds. -/
def envFresh : RunEnv :=
  { force_reset := false
  , state_file := some [("seen_ids", JVal.arr []), ("last_check", JVal.null)]
  , live_fetch := NORMATIVOS_CONHECIDOS
  , page := fun _ => Except.ok ""
  , claude := fun _ => Except.ok "RESUMO"
  , twilio := fun _ => Except.ok "SID"
  , now_utc := "2026-10-12T00:00:00+00:00" }

theorem C2_oldest_first_witness :
    okFn envFresh.claude ∧ okFn envFresh.twilio ∧
    (run envFresh).sent.map Prod.fst = ["ResolucaoBCB-403", "ResolucaoBCB-407"] := by
  have hcl : okFn envFresh.claude := fun _ => ⟨"RESUMO", rfl⟩
  have htw : okFn envFresh.twilio := fun _ => ⟨"SID", rfl⟩
  exact ⟨hcl, htw, ((C2_oldest_first envFresh hcl htw).1).trans (by decide)⟩

theorem probe_item_fields (seq : SeqEnv) (num : Nat) (it : RegulationItem)
    (h : probe_item seq num = some it) :
    it.numero = toString num ∧ it.data_publicacao = seq.today := by
  cases hq : seq.probe num with
  | err => simp [probe_item, hq] at h
  | notFound code => simp [probe_item, hq] at h
  | found h1 =>
    simp only [probe_item, hq, Option.some_inj] at h
    cases h
    exact ⟨rfl, rfl⟩

/-- C6: the sequential fallback is invoked exactly when the primary
strategy parses zero items; it probes precisely the five numbers after the
highest recorded one (429 when none is recorded) and synthesizes, for each
existing number, an item dated today. -/
theorem C6_fallback_trigger (rows : List Row) (seq : SeqEnv) :
    (primary_normativos rows = [] →
      fetch_latest_normativos rows seq = check_sequential_normativos seq) ∧
    (primary_normativos rows ≠ [] →
      fetch_latest_normativos rows seq = primary_normativos rows) ∧
    check_sequential_normativos seq =
      (probe_range (ultimo_numero (getSeenIds (load_state seq.state_file)))).filterMap
        (probe_item seq) ∧
    ((getSeenIds (load_state seq.state_file)).filterMap trailingDigits = [] →
      ultimo_numero (getSeenIds (load_state seq.state_file)) = 429) ∧
    (∀ num it, probe_item seq num = some it →
      it.data_publicacao = seq.today ∧ it.numero = toString num) ∧
    (∀ num h1, seq.probe num = ProbeResult.found h1 →
      (probe_item seq num).isSome = true) := by
  refine ⟨?_, ?_, rfl, ?_, ?_, ?_⟩
  · intro h
    simp [fetch_latest_normativos, h]
  · intro h
    simp [fetch_latest_normativos, h]
  · intro h
    simp [ultimo_numero, h]
  · intro num it h
    exact ⟨(probe_item_fields seq num it h).2, (probe_item_fields seq num it h).1⟩
  · intro num h1 hp
    simp [probe_item, hp]

/-- A fallback environment: empty history, every probed number exists with
an `h1` heading. -/
def seqAsc : SeqEnv :=
  { state_file := some [("seen_ids", JVal.arr []), ("last_check", JVal.null)]
  , probe := fun _ => ProbeResult.found (some "Resolução BCB")
  , today := "2026-10-12" }

theorem C6_fallback_trigger_witness :
    fetch_latest_normativos [] seqAsc = check_sequential_normativos seqAsc ∧
    ultimo_numero (getSeenIds (load_state seqAsc.state_file)) = 429 ∧
    (probe_item seqAsc 430).isSome = true :=
  ⟨(C6_fallback_trigger [] seqAsc).1 rfl,
   (C6_fallback_trigger [] seqAsc).2.2.2.1 rfl,
   (C6_fallback_trigger [] seqAsc).2.2.2.2.2 430 (some "Resolução BCB") rfl⟩

/-- The numeric value of an item's numero field (0 when not a number). -/
def numeroVal (n : RegulationItem) : Nat := (trailingDigits n.numero).getD 0

/-- Modelled from the spec: `fetchLatest` results are "ordered newest-first"
— resolução numbers are issued in increasing order, so newest-first means
the numero values are non-increasing along the returned sequence. -/
def newest_first_b : List RegulationItem → Bool
  | [] => true
  | [_] => true
  | a :: b :: t => (decide (numeroVal b ≤ numeroVal a)) && newest_first_b (b :: t)

/-- Modelled from the spec: the proposition that a fetch result is
"ordered newest-first". -/
def spec_newest_first (l : List RegulationItem) : Prop := newest_first_b l = true

instance (l : List RegulationItem) : Decidable (spec_newest_first l) :=
  inferInstanceAs (Decidable (newest_first_b l = true))

theorem primary_length_le (rows : List Row) :
    (primary_normativos rows).length ≤ 20 := by
  unfold primary_normativos
  refine le_trans (List.length_filterMap_le _ _) ?_
  rw [List.length_take]
  exact Nat.min_le_left _ _

theorem check_sequential_length_le (seq : SeqEnv) :
    (check_sequential_normativos seq).length ≤ 5 := by
  unfold check_sequential_normativos probe_range
  exact le_trans (List.length_filterMap_le _ _) (by simp)

theorem filterMap_probe_numeros (seq : SeqEnv) (l : List Nat) :
    ((l.filterMap (probe_item seq)).map RegulationItem.numero) =
      (l.filter (fun k => (probe_item seq k).isSome)).map toString := by
  induction l with
  | nil => rfl
  | cons k tl ih =>
    cases hp : probe_item seq k with
    | none => simp [List.filterMap_cons, List.filter_cons, hp, ih]
    | some it =>
      have hnum := (probe_item_fields seq k it hp).1
      simp [List.filterMap_cons, List.filter_cons, hp, hnum, ih]

theorem probe_range_ascending (u : Nat) :
    List.Pairwise (· < ·) (probe_range u) := by
  simp only [probe_range, List.pairwise_cons, List.mem_cons, List.mem_singleton,
    List.not_mem_nil, List.Pairwise.nil]
  refine ⟨?_, ?_, ?_, ?_, by simp⟩ <;> intro a ha <;> rcases ha with h | h | h | h | h <;>
    first
      | (subst h; omega)
      | exact absurd h (by simp)

/-- C7 as frozen is false: on the sequential-probe fallback path the items
come back in ascending numero order (oldest first), not newest-first. With
an empty history and every probe succeeding, `fetch_latest_normativos`
returns numeros 430..434 ascending, violating the newest-first ordering
the claim asserts for both paths. -/
theorem C7_counterexample :
    primary_normativos [] = [] ∧
    (fetch_latest_normativos [] seqAsc).map numeroVal = [430, 431, 432, 433, 434] ∧
    ¬ spec_newest_first (fetch_latest_normativos [] seqAsc) := by
  exact ⟨rfl, by decide, by decide⟩

/-- C7 amended: every call to `fetch_latest_normativos` returns at most 20
items (at most 5 on the fallback path); the primary path preserves the
listing's order, while the fallback path returns its items in strictly
ascending numero order (oldest first), so the Orchestrator's unconditional
reversal processes fallback items newest-first. -/
theorem C7_bounded_count (rows : List Row) (seq : SeqEnv) :
    (fetch_latest_normativos rows seq).length ≤ 20 ∧
    (primary_normativos rows = [] →
      (fetch_latest_normativos rows seq).length ≤ 5 ∧
      ∃ ks : List Nat, List.Pairwise (· < ·) ks ∧
        (fetch_latest_normativos rows seq).map RegulationItem.numero =
          ks.map toString) := by
  constructor
  · unfold fetch_latest_normativos
    by_cases h : (primary_normativos rows).isEmpty
    · rw [if_pos h]
      exact le_trans (check_sequential_length_le seq) (by omega)
    · rw [if_neg h]
      exact primary_length_le rows
  · intro h
    have he : (primary_normativos rows).isEmpty = true := by simp [h]
    have hfe : fetch_latest_normativos rows seq = check_sequential_normativos seq := by
      unfold fetch_latest_normativos
      rw [if_pos he]
    refine ⟨hfe ▸ check_sequential_length_le seq, ?_⟩
    refine ⟨(probe_range (ultimo_numero (getSeenIds (load_state seq.state_file)))).filter
      (fun k => (probe_item seq k).isSome), ?_, ?_⟩
    · exact List.Pairwise.sublist (List.filter_sublist _) (probe_range_ascending _)
    · rw [hfe]
      exact filterMap_probe_numeros seq _

theorem C7_bounded_count_witness :
    (fetch_latest_normativos [] seqAsc).length ≤ 20 ∧
    ((fetch_latest_normativos [] seqAsc).length ≤ 5 ∧
      ∃ ks : List Nat, List.Pairwise (· < ·) ks ∧
        (fetch_latest_normativos [] seqAsc).map RegulationItem.numero =
          ks.map toString) :=
  ⟨(C7_bounded_count [] seqAsc).1, (C7_bounded_count [] seqAsc).2 rfl⟩

/-- C3: a failing item is skipped without aborting the batch — the send
sequence is exactly the successful subsequence of the processing order,
every successful new item is notified and its id reaches the persisted
seen list, and an item whose pipeline raised (and whose id no duplicate
successfully carried) is neither notified nor persisted. The count
hypothesis reflects the fetch bound (a batch never exceeds 20 items, far
below the 500 cap). -/
theorem C3_partial_failure_isolation (env : RunEnv) (h : env.force_reset = false)
    (hcount : (novosOf env).length ≤ 500) :
    (run env).sent.map Prod.fst =
      ((novosOf env).reverse.filter (item_sent env.page env.claude env.twilio)).map
        (fun n => n.id) ∧
    (∀ n ∈ novosOf env, item_sent env.page env.claude env.twilio n = true →
      n.id ∈ (run env).sent.map Prod.fst ∧ n.id ∈ persistedSeenIds (run env)) ∧
    (∀ n ∈ novosOf env, item_sent env.page env.claude env.twilio n = false →
      (∀ m ∈ novosOf env, m.id = n.id →
        item_sent env.page env.claude env.twilio m = false) →
      n.id ∉ (run env).sent.map Prod.fst ∧ n.id ∉ persistedSeenIds (run env)) := by
  have hsent_ids : (run env).sent.map Prod.fst =
      ((novosOf env).reverse.filter (item_sent env.page env.claude env.twilio)).map
        (fun n => n.id) := by
    rw [run_sent, List.map_map]
    rfl
  have hA_len : (((novosOf env).reverse.filter
      (item_sent env.page env.claude env.twilio)).map (fun n => n.id)).length ≤ 500 := by
    rw [List.length_map]
    refine le_trans (List.length_filter_le _ _) ?_
    rw [List.length_reverse]
    exact hcount
  have hpers : persistedSeenIds (run env) =
      lastN (500 - (((novosOf env).reverse.filter
          (item_sent env.page env.claude env.twilio)).map (fun n => n.id)).length)
        (seenAtStart env) ++
      ((novosOf env).reverse.filter (item_sent env.page env.claude env.twilio)).map
        (fun n => n.id) := by
    rw [run_persistedSeenIds env h, run_final_seen]
    exact lastN_append_of_le _ hA_len
  refine ⟨hsent_ids, ?_, ?_⟩
  · intro n hn hs
    have hid : n.id ∈ ((novosOf env).reverse.filter
        (item_sent env.page env.claude env.twilio)).map (fun n => n.id) :=
      List.mem_map.mpr ⟨n, List.mem_filter.mpr ⟨List.mem_reverse.mpr hn, hs⟩, rfl⟩
    exact ⟨hsent_ids ▸ hid, hpers ▸ List.mem_append_right _ hid⟩
  · intro n hn _ hall
    have hnotA : n.id ∉ ((novosOf env).reverse.filter
        (item_sent env.page env.claude env.twilio)).map (fun n => n.id) := by
      intro hmem
      obtain ⟨m, hm, hmeq⟩ := List.mem_map.mp hmem
      have hm1 := List.mem_filter.mp hm
      have hfalse := hall m (List.mem_reverse.mp hm1.1) hmeq
      rw [hfalse] at hm1
      exact absurd hm1.2 (by simp)
    have hnotS : n.id ∉ seenAtStart env := by
      have h2 := (List.mem_filter.mp hn).2
      simpa using h2
    constructor
    · rw [hsent_ids]
      exact hnotA
    · rw [hpers]
      intro hmem
      rcases List.mem_append.mp hmem with hL | hR
      · exact hnotS (List.IsSuffix.subset (lastN_suffix _ _) hL)
      · exact hnotA hR

/-- The three-item partial-failure scenario: three new items, fetched
newest-first; summarization raises exactly on the middle item (item 2 in
processing order). -/
def nw1 : RegulationItem :=
  { id := "N-1", tipo := "Resolução BCB", numero := "401", titulo := "t1"
  , data_publicacao := "2026-01-01", url := "u1", ementa := "e1" }

def nw2 : RegulationItem :=
  { id := "N-2", tipo := "Resolução BCB", numero := "402", titulo := "t2"
  , data_publicacao := "2026-01-02", url := "u2", ementa := "e2" }

def nw3 : RegulationItem :=
  { id := "N-3", tipo := "Resolução BCB", numero := "403", titulo := "t3"
  , data_publicacao := "2026-01-03", url := "u3", ementa := "e3" }

def envPartial : RunEnv :=
  { force_reset := false
  , state_file := some [("seen_ids", JVal.arr []), ("last_check", JVal.null)]
  , live_fetch := [nw3, nw2, nw1]
  , page := fun _ => Except.ok ""
  , claude := fun p =>
      if p = gerar_resumo_prompt nw2 "" then Except.error "API indisponível"
      else Except.ok "RESUMO"
  , twilio := fun _ => Except.ok "SID"
  , now_utc := "2026-10-12T00:00:00+00:00" }

set_option maxRecDepth 400000

theorem C3_partial_failure_isolation_witness :
    (run envPartial).sent.map Prod.fst = ["N-1", "N-3"] ∧
    ("N-1" ∈ persistedSeenIds (run envPartial) ∧
      "N-3" ∈ persistedSeenIds (run envPartial)) ∧
    ("N-2" ∉ (run envPartial).sent.map Prod.fst ∧
      "N-2" ∉ persistedSeenIds (run envPartial)) := by
  have h3 := C3_partial_failure_isolation envPartial rfl (by decide)
  exact ⟨(h3.1).trans (by decide),
    ⟨(h3.2.1 nw1 (by decide) (by decide)).2, (h3.2.1 nw3 (by decide) (by decide)).2⟩,
    h3.2.2 nw2 (by decide) (by decide) (by decide)⟩

/-- C1 amended: an item whose id is already in the seen set at run start is
filtered out before processing, so — in every run, whatever the history or
batch size — the Notifier is never invoked for it; and its id keeps its
membership in the persisted seen list provided the start history plus the
batch fits within the 500-entry cap (when appends push the history past
500, the FIFO truncation of C4 may evict the id — the aging-out the spec
itself describes). -/
theorem C1_dedup_idempotent (env : RunEnv) (h : env.force_reset = false)
    (i : RegulationItem) (_hfetch : i ∈ env.live_fetch)
    (hmem : i.id ∈ seenAtStart env) :
    i.id ∉ (run env).attempts.map Prod.fst ∧
    ((seenAtStart env).length + (novosOf env).length ≤ 500 →
      i.id ∈ persistedSeenIds (run env)) := by
  constructor
  · intro hatt
    rw [run_attempts, List.map_map] at hatt
    obtain ⟨m, hm, hmeq⟩ := List.mem_map.mp hatt
    have hm1 := List.mem_filter.mp hm
    have hm2 := List.mem_reverse.mp hm1.1
    have hnot := (List.mem_filter.mp hm2).2
    simp only [Function.comp] at hmeq
    rw [hmeq] at hnot
    simp at hnot
    exact hnot hmem
  · intro hcap
    have hflen : (run env).final_seen.length ≤ 500 := by
      rw [run_final_seen, List.length_append, List.length_map]
      have h1 := List.length_filter_le (item_sent env.page env.claude env.twilio)
        (novosOf env).reverse
      rw [List.length_reverse] at h1
      omega
    rw [run_persistedSeenIds env h, lastN_eq_self hflen, run_final_seen]
    exact List.mem_append_left _ hmem

theorem C1_dedup_idempotent_witness :
    normativo_403.id ∈ seenAtStart envLive ∧
    normativo_403 ∈ envLive.live_fetch ∧
    normativo_403.id ∉ (run envLive).attempts.map Prod.fst ∧
    normativo_403.id ∈ persistedSeenIds (run envLive) := by
  have h := C1_dedup_idempotent envLive rfl normativo_403 (by decide) (by decide)
  exact ⟨by decide, by decide, h.1, h.2 (by decide)⟩

/-- An already-seen item together with a full 500-entry history and one
genuinely new item: processing the new item pushes the history to 501
entries and the truncation evicts the already-seen id. -/
def itemSeen : RegulationItem :=
  { id := "X", tipo := "Resolução BCB", numero := "400", titulo := "t"
  , data_publicacao := "2026-01-01", url := "uX", ementa := "e" }

def itemNew : RegulationItem :=
  { id := "Y", tipo := "Resolução BCB", numero := "500", titulo := "t2"
  , data_publicacao := "2026-01-02", url := "uY", ementa := "e2" }

def envEvict : RunEnv :=
  { force_reset := false
  , state_file := some
      [ ("seen_ids", JVal.arr (JVal.str "X" :: List.replicate 499 (JVal.str "F")))
      , ("last_check", JVal.null) ]
  , live_fetch := [itemSeen, itemNew]
  , page := fun _ => Except.ok ""
  , claude := fun _ => Except.ok "RESUMO"
  , twilio := fun _ => Except.ok "SID"
  , now_utc := "T" }

/-- C1 as frozen is false: with a 500-entry history whose oldest entry is
the id of a still-fetched item, a run that successfully processes one new
item drops that id from the persisted seen set — the run does not notify
the item (that part holds) but the membership of its id does change. -/
theorem C1_counterexample :
    envEvict.force_reset = false ∧
    itemSeen ∈ envEvict.live_fetch ∧
    itemSeen.id ∈ seenAtStart envEvict ∧
    itemSeen.id ∉ (run envEvict).attempts.map Prod.fst ∧
    itemSeen.id ∉ persistedSeenIds (run envEvict) :=
  ⟨rfl, by decide, by decide, by decide, by decide⟩

end Monitor
